import Mathlib

/-!
Verification development for the SmartDocAI document chatbot
(src/server/script.py).

The Python program is shallowly embedded: pure fragments become Lean
functions, the mutable fields of the `ContextChatbot` object become an
explicit `ChatState` record threaded through the operations, and calls to
external capabilities (the language model, the embedding function, FAISS
persistence) become explicit parameters or outcome values.  Definitions
whose code lives in a third-party dependency rather than in the
repository are modelled from the specification and are marked
`Modelled from the spec:` in their doc comments.
-/

namespace SmartDoc

/-- A text document as used by the program: page content plus a metadata
mapping.  Metadata is an insertion-ordered association list, mirroring a
Python dict of strings. -/
structure Doc where
  pageContent : String
  metadata : List (String × String)
deriving Repr, DecidableEq

/-- Python dict assignment `m[k] = v` on an insertion-ordered association
list: replace the value at the first occurrence of `k`, otherwise append
the new pair at the end. -/
def setMeta (m : List (String × String)) (k v : String) : List (String × String) :=
  match m with
  | [] => [(k, v)]
  | (k0, v0) :: rest => if k0 = k then (k0, v) :: rest else (k0, v0) :: setMeta rest k v

theorem lookup_setMeta_self (m : List (String × String)) (k v : String) :
    (setMeta m k v).lookup k = some v := by
  induction m with
  | nil => simp [setMeta, List.lookup]
  | cons p rest ih =>
    obtain ⟨k0, v0⟩ := p
    by_cases h : k0 = k
    · subst h
      simp [setMeta, List.lookup]
    · have hbe : (k == k0) = false := by
        simp only [beq_eq_false_iff_ne, ne_eq]
        exact fun hk => h hk.symm
      simp [setMeta, h, List.lookup, hbe, ih]

theorem lookup_setMeta_ne (m : List (String × String)) (k k2 v : String) (h : k2 ≠ k) :
    (setMeta m k v).lookup k2 = m.lookup k2 := by
  have hbe : (k2 == k) = false := by
    simp only [beq_eq_false_iff_ne, ne_eq]
    exact h
  induction m with
  | nil =>
    simp [setMeta, List.lookup, hbe]
  | cons p rest ih =>
    obtain ⟨k0, v0⟩ := p
    by_cases hk : k0 = k
    · subst hk
      simp [setMeta, List.lookup, hbe]
    · simp [setMeta, hk, List.lookup, ih]

/-- Modelled from the spec: the chunker (langchain
`RecursiveCharacterTextSplitter`, configured in `process_documents` with
`chunk_size=1000` and `chunk_overlap=200`, is dependency code not in the
repository).  Per spec section 4.2, pieces are packed greedily up to the
maximum size and the trailing `overlap` units of one chunk are carried
into the start of the next; this is the resulting sliding window over the
unit sequence, expressed with an explicit fuel argument so that it
computes by kernel reduction.  `step` is `size - overlap`. -/
def chunkGo {α : Type} (size step : Nat) : Nat → List α → List (List α)
  | 0, t => [t]
  | fuel + 1, t =>
    if t.length ≤ size then [t]
    else t.take size :: chunkGo size step fuel (t.drop step)

/-- Modelled from the spec: split one text into overlapping chunks of at
most `size` units with `overlap` units carried between consecutive
chunks. -/
def splitText {α : Type} (size overlap : Nat) (t : List α) : List (List α) :=
  chunkGo size (size - overlap) t.length t

theorem chunkGo_ne_nil {α : Type} (size step fuel : Nat) (t : List α) :
    chunkGo size step fuel t ≠ [] := by
  cases fuel with
  | zero => simp [chunkGo]
  | succ n =>
    simp only [chunkGo]
    split <;> simp

theorem chunkGo_head_take {α : Type} (size step overlap : Nat) (hov : overlap ≤ size)
    (fuel : Nat) (t : List α) :
    ∀ b ∈ (chunkGo size step fuel t).head?, b.take overlap = t.take overlap := by
  cases fuel with
  | zero =>
    intro b hb
    simp [chunkGo] at hb
    subst hb
    rfl
  | succ n =>
    intro b hb
    simp only [chunkGo] at hb
    split at hb
    · simp at hb
      subst hb
      rfl
    · simp at hb
      subst hb
      rw [List.take_take, Nat.min_eq_left hov]

theorem chunkGo_length_le {α : Type} (size step : Nat) :
    ∀ (fuel : Nat) (t : List α), t.length ≤ fuel * step + size →
      ∀ c ∈ chunkGo size step fuel t, c.length ≤ size := by
  intro fuel
  induction fuel with
  | zero =>
    intro t ht c hc
    simp [chunkGo] at hc
    subst hc
    simpa using ht
  | succ n ih =>
    intro t ht c hc
    simp only [chunkGo] at hc
    split at hc
    · rename_i hle
      simp at hc
      subst hc
      exact hle
    · rename_i hgt
      rcases List.mem_cons.mp hc with hc | hc
      · subst hc
        simp
      · refine ih (t.drop step) ?_ c hc
        rw [List.length_drop]
        have hmul : (n + 1) * step = n * step + step := Nat.succ_mul n step
        rw [hmul] at ht
        omega

theorem chunkGo_chain {α : Type} (size overlap : Nat) (hov : overlap < size) :
    ∀ (fuel : Nat) (t : List α),
      List.Chain' (fun a b => a.length = size ∧ b.take overlap = a.drop (size - overlap))
        (chunkGo size (size - overlap) fuel t) := by
  intro fuel
  induction fuel with
  | zero =>
    intro t
    simp [chunkGo]
  | succ n ih =>
    intro t
    simp only [chunkGo]
    split
    · simp
    · rename_i hgt
      push_neg at hgt
      refine List.chain'_cons'.mpr ⟨?_, ih (t.drop (size - overlap))⟩
      intro b hb
      constructor
      · simp
        omega
      · have hhead := chunkGo_head_take size (size - overlap) overlap (Nat.le_of_lt hov)
          n (t.drop (size - overlap)) b hb
        rw [hhead, List.drop_take]
        congr 1
        omega

/-- A vector record of the embedding index: id (insertion order), the
embedding of the chunk text, the chunk text and its metadata. -/
structure VecRecord where
  rid : Nat
  embedding : List Int
  text : String
  metadata : List (String × String)
deriving Repr, DecidableEq

/-- Modelled from the spec: the embedding index (FAISS, dependency code
not in the repository) stores one vector record per chunk. -/
structure Vectorstore where
  records : List VecRecord
deriving Repr, DecidableEq

/-- Modelled from the spec: `FAISS.from_documents(texts, embeddings)`
embeds every chunk exactly once and stores records in insertion order. -/
def buildVectorstore (emb : String → List Int) (chunks : List Doc) : Vectorstore :=
  ⟨chunks.enum.map (fun p => ⟨p.1, emb p.2.pageContent, p.2.pageContent, p.2.metadata⟩)⟩

/-- Dot product used as the similarity score of the modelled index. -/
def dotProd (a b : List Int) : Int :=
  ((a.zip b).map (fun p => p.1 * p.2)).sum

/-- Modelled from the spec: nearest-neighbour retrieval, closest first,
ties broken by insertion order (the sort below is stable), truncated to
`k` results. -/
def retrieve (emb : String → List Int) (vs : Vectorstore) (q : String) (k : Nat) :
    List VecRecord :=
  let qv := emb q
  (vs.records.mergeSort (fun a b => decide (dotProd qv b.embedding ≤ dotProd qv a.embedding))).take k

/-- Modelled from the spec: `save_local` serializes the index into an
opaque blob; here the blob is the flat list of record fields. -/
def saveVS (vs : Vectorstore) : List (Nat × List Int × String × List (String × String)) :=
  vs.records.map (fun r => (r.rid, r.embedding, r.text, r.metadata))

/-- Modelled from the spec: `FAISS.load_local` rebuilds the index from
the serialized blob. -/
def loadVS (blob : List (Nat × List Int × String × List (String × String))) : Vectorstore :=
  ⟨blob.map (fun p => ⟨p.1, p.2.1, p.2.2.1, p.2.2.2⟩)⟩

/-- The conversational retrieval chain: it holds the vector store used as
retriever (with `k = 5` as configured in the code); the language model
itself is external and its outcome is passed explicitly to `query`. -/
structure QAChain where
  store : Vectorstore
  retrieverK : Nat
deriving Repr, DecidableEq

/-- `ConversationalRetrievalChain.from_llm(... retriever k=5 ...)` as
called in `process_documents` and `load_vectorstore`. -/
def mkQaChain (vs : Vectorstore) : QAChain :=
  ⟨vs, 5⟩

/-- A conversation turn: question and answer. -/
abbrev Turn := String × String

/-- The mutable fields of `ContextChatbot`: `self.vectorstore`,
`self.qa_chain` and the message buffer of `self.memory`
(`ConversationBufferWindowMemory`), all `None`/empty after `__init__`. -/
structure ChatState where
  vectorstore : Option Vectorstore
  qaChain : Option QAChain
  memory : List Turn
deriving Repr, DecidableEq

/-- The window size of the conversation memory: `k=10` in `__init__`. -/
def memoryK : Nat := 10

/-- Appending a turn to the memory buffer (newest last). -/
def appendTurn (m : List Turn) (t : Turn) : List Turn :=
  m ++ [t]

/-- Modelled from the spec: the window of `ConversationBufferWindowMemory`
(dependency code) is the last `memoryK` turns of the buffer, oldest
first. -/
def memWindow (m : List Turn) : List Turn :=
  m.drop (m.length - memoryK)

/-- `self.memory.clear()` as called by `reset_conversation`. -/
def resetConversation (st : ChatState) : ChatState :=
  { st with memory := [] }

/-- Python string slicing `s[:n]` by characters, as used for the
evidence excerpt `doc.page_content[:200]`. -/
def takeChars (s : String) (n : Nat) : String :=
  String.mk (s.toList.take n)

/-- The outcome of one invocation of the external language-model chain:
either an answer together with the retrieved source documents, or a
failure message (timeout, quota, malformed response, ...). -/
inductive LlmOutcome where
  | ok (answer : String) (sourceDocs : List Doc)
  | err (msg : String)
deriving Repr, DecidableEq

/-- The dictionary returned by `ContextChatbot.query`: answer text, the
evidence entries (content excerpt and metadata), and the optional
`question` and `error` keys. -/
structure QueryResult where
  answer : String
  sources : List (String × List (String × String))
  question : Option String
  error : Option String
deriving Repr, DecidableEq

/-- `ContextChatbot.query` (script.py lines 327-369).  When no chain has
been built it returns the not-ready dictionary; otherwise the chain is
invoked.  Per spec section 4.5 the chain (dependency code) commits the
new turn to memory only after the language model succeeds, so on failure
the state is returned unchanged and the caught-exception dictionary is
produced.  The function is total: every path returns a result. -/
def query (st : ChatState) (question : String) (llm : LlmOutcome) :
    ChatState × QueryResult :=
  match st.qaChain with
  | none =>
    (st,
     { answer := "Please upload documents first before asking questions.",
       sources := [],
       question := none,
       error := some "No documents loaded" })
  | some _ =>
    match llm with
    | .err e =>
      (st,
       { answer := "An error occurred while processing your question: " ++ e,
         sources := [],
         question := none,
         error := some e })
    | .ok ans docs =>
      ({ st with memory := appendTurn st.memory (question, ans) },
       { answer := ans,
         sources := docs.map (fun d => (takeChars d.pageContent 200 ++ "...", d.metadata)),
         question := some question,
         error := none })

/-- Splitting one document into chunk documents, each inheriting the
parent metadata (1000/200 are the values configured in
`process_documents`). -/
def splitDoc (d : Doc) : List Doc :=
  (splitText 1000 200 d.pageContent.toList).map
    (fun c => { pageContent := String.mk c, metadata := d.metadata })

/-- `text_splitter.split_documents(documents)`. -/
def splitDocuments (docs : List Doc) : List Doc :=
  docs.flatMap splitDoc

/-- `ContextChatbot.process_documents` (script.py lines 278-325): on an
empty document list it prints a message and returns without touching any
field; otherwise it chunks the documents, builds a fresh vector store and
a fresh QA chain. -/
def processDocuments (emb : String → List Int) (st : ChatState) (docs : List Doc) :
    ChatState :=
  if docs.isEmpty then st
  else
    let texts := splitDocuments docs
    let vs := buildVectorstore emb texts
    { st with vectorstore := some vs, qaChain := some (mkQaChain vs) }

/-- `ContextChatbot.save_vectorstore`: serializes only when an index is
present. -/
def saveVectorstoreOp (st : ChatState) :
    Option (List (Nat × List Int × String × List (String × String))) :=
  st.vectorstore.map saveVS

/-- `ContextChatbot.load_vectorstore` (script.py lines 382-412): the body
runs under a catch-all `except` that only logs; deserialization is the
fallible first step, and the assignments to `self.vectorstore` and
`self.qa_chain` happen after it.  On failure the handler leaves the state
exactly as it was; the function never raises to the caller. -/
def loadVectorstoreOp (st : ChatState) (loaded : Except String Vectorstore) :
    ChatState :=
  match (do
      let vs ← loaded
      let st1 := { st with vectorstore := some vs }
      pure { st1 with qaChain := some (mkQaChain vs) } :
      Except String ChatState) with
  | .ok st2 => st2
  | .error _ => st

/-- The structured result printed by `main`: one record covering the
dictionary keys used on the various paths. -/
structure MainResult where
  status : String
  message : Option String
  answer : Option String
  sources : Option (List (String × List (String × String)))
  question : Option String
  error : Option String
  documentsCount : Option Nat
deriving Repr, DecidableEq

/-- The `load` action of `main` (script.py lines 441-459) after
`load_documents` has produced `docs`: process the documents and emit a
result whose status is unconditionally `success`. -/
def mainLoad (emb : String → List Int) (st : ChatState) (docs : List Doc) :
    ChatState × MainResult :=
  let st2 := processDocuments emb st docs
  (st2,
   { status := "success",
     message := some ("Successfully loaded " ++ toString docs.length ++ " documents"),
     answer := none,
     sources := none,
     question := none,
     error := none,
     documentsCount := some docs.length })

/-- The `query` action of `main` (script.py lines 461-468):
`result = chatbot.query(question)` followed by
`result["status"] = "success"`, with no inspection of the error key. -/
def mainQuery (st : ChatState) (question : String) (llm : LlmOutcome) :
    ChatState × MainResult :=
  let r := query st question llm
  (r.1,
   { status := "success",
     message := none,
     answer := some r.2.answer,
     sources := some r.2.sources,
     question := r.2.question,
     error := r.2.error,
     documentsCount := none })

/-- The catch-all `except` path of `main` (script.py lines 509-521). -/
def mainError (e : String) : MainResult :=
  { status := "error",
    message := some ("An error occurred: " ++ e),
    answer := none,
    sources := none,
    question := none,
    error := some e,
    documentsCount := none }

/-- `os.path.basename` on POSIX paths: the component after the last
slash (the characters accumulated since the last slash). -/
def basename (s : String) : String :=
  String.mk (s.toList.foldl (fun acc c => if c = '/' then [] else acc ++ [c]) [])

/-- The S3 provenance tagging of `load_documents` (script.py lines
253-261) applied to one loaded document: set `source_type` to `s3`, then
record the first supplied S3 path whose basename equals the local file
name, if any. -/
def tagS3Doc (s3Paths : List String) (fileName : String) (d : Doc) : Doc :=
  let d1 : Doc := { d with metadata := setMeta d.metadata "source_type" "s3" }
  match s3Paths.find? (fun p => basename p == fileName) with
  | some p => { d1 with metadata := setMeta d1.metadata "s3_path" p }
  | none => d1

/-- The guard around the tagging: it applies exactly to the documents of
files that live under the temporary download directory. -/
def tagDocsIfS3 (fromTemp : Bool) (s3Paths : List String) (fileName : String)
    (docs : List Doc) : List Doc :=
  if fromTemp then docs.map (tagS3Doc s3Paths fileName) else docs

/-! Concrete fixtures used by witnesses and counterexamples. -/

/-- A one-record vector store standing for a previously built index. -/
def vsA : Vectorstore :=
  ⟨[⟨0, [1], "alpha", []⟩]⟩

/-- A chatbot state holding a previously built index and chain. -/
def stA : ChatState :=
  ⟨some vsA, some (mkQaChain vsA), []⟩

/-- A fresh chatbot state: nothing loaded yet. -/
def stEmpty : ChatState :=
  ⟨none, none, []⟩

/-- A trivial embedding capability for concrete evaluations. -/
def embZero : String → List Int :=
  fun _ => [0]

/-- Eleven conversation turns, one more than the window size. -/
def turns11 : List Turn :=
  List.replicate 11 ("q", "a")

/-- A document whose content is shorter than 200 characters. -/
def docShort : Doc :=
  ⟨"hi", []⟩

/-! Helper lemmas. -/

theorem loadVS_saveVS (vs : Vectorstore) : loadVS (saveVS vs) = vs := by
  obtain ⟨records⟩ := vs
  simp only [loadVS, saveVS, List.map_map]
  congr 1
  exact List.map_id records

theorem foldl_appendTurn (turns : List Turn) :
    ∀ init : List Turn, turns.foldl appendTurn init = init ++ turns := by
  induction turns with
  | nil => intro init; simp
  | cons t rest ih => intro init; simp [appendTurn, ih]

theorem chunkGo_of_le {α : Type} (size step fuel : Nat) (t : List α)
    (h : t.length ≤ size) : chunkGo size step fuel t = [t] := by
  cases fuel with
  | zero => rfl
  | succ n => simp [chunkGo, h]

theorem chunkGo_step {α : Type} (size step fuel : Nat) (t : List α)
    (hf : 0 < fuel) (h : size < t.length) :
    chunkGo size step fuel t = t.take size :: chunkGo size step (fuel - 1) (t.drop step) := by
  cases fuel with
  | zero => omega
  | succ n => simp [chunkGo, Nat.not_le_of_lt h]

theorem range'_take (s m n : Nat) :
    (List.range' s n).take m = List.range' s (min m n) := by
  induction n generalizing s m with
  | zero => simp
  | succ k ih =>
    cases m with
    | zero => simp
    | succ m0 => simp [List.range'_succ, ih, Nat.succ_min_succ]

theorem range'_drop (s m n : Nat) :
    (List.range' s n).drop m = List.range' (s + m) (n - m) := by
  induction n generalizing s m with
  | zero => simp
  | succ k ih =>
    cases m with
    | zero => simp
    | succ m0 =>
      simp only [List.range'_succ, List.drop_succ_cons, ih]
      congr 1 <;> omega

theorem splitText_range2500 :
    splitText 1000 200 (List.range 2500) =
      [List.range' 0 1000, List.range' 800 1000, List.range' 1600 900] := by
  have h0 : (2500 : Nat) - 800 = 1700 := by norm_num
  simp only [splitText, List.length_range, List.range_eq_range']
  norm_num
  rw [chunkGo_step 1000 800 2500 (List.range' 0 2500) (by norm_num)
    (by simp [List.length_range'])]
  rw [range'_take, range'_drop]
  norm_num
  rw [chunkGo_step 1000 800 2499 (List.range' 800 1700) (by norm_num)
    (by simp [List.length_range'])]
  rw [range'_take, range'_drop]
  norm_num
  rw [chunkGo_of_le 1000 800 2498 (List.range' 1600 900) (by simp [List.length_range'])]

/-! Claim theorems. -/

/-- Claim C1, corrected, counterexample: loading an empty document set
into a state holding a previously built index leaves that index untouched
but the load action of `main` still reports status `success`, so the
operation does report success, contradicting the claim. -/
theorem claim_C1_counterexample :
    (mainLoad embZero stA []).2.status = "success" ∧
    (mainLoad embZero stA []).1.vectorstore = some vsA := by
  exact ⟨rfl, rfl⟩

/-- Claim C1, amended: if the document set produced by loading is empty,
`process_documents` returns early, so the prior vectorstore and QA chain
are left untouched; however the load operation does not fail and still
emits a result with status `success` reporting zero documents. -/
theorem claim_C1 (emb : String → List Int) (st : ChatState) (docs : List Doc)
    (h : docs = []) :
    processDocuments emb st docs = st ∧
    (mainLoad emb st docs).1 = st ∧
    (mainLoad emb st docs).2.status = "success" := by
  subst h
  exact ⟨rfl, rfl, rfl⟩

/-- Claim C1 witness: the amended claim at a concrete prior state. -/
theorem claim_C1_witness :
    processDocuments embZero stA [] = stA ∧
    (mainLoad embZero stA []).1 = stA ∧
    (mainLoad embZero stA []).2.status = "success" :=
  claim_C1 embZero stA [] rfl

/-- Claim C2: for every question and every language-model outcome,
calling `query` before any index has been built (no QA chain) returns the
defined not-ready result, an answer asking the user to upload documents
with an empty evidence list, and leaves the state unchanged; the
embedding is a total function, so no exception is raised. -/
theorem claim_C2 (st : ChatState) (q : String) (llm : LlmOutcome)
    (h : st.qaChain = none) :
    (query st q llm).1 = st ∧
    (query st q llm).2.answer = "Please upload documents first before asking questions." ∧
    (query st q llm).2.sources = [] ∧
    (query st q llm).2.error = some "No documents loaded" := by
  simp [query, h]

/-- Claim C2 witness: the fresh state at a concrete question. -/
theorem claim_C2_witness :
    (query stEmpty "What is this about?" (.err "boom")).1 = stEmpty ∧
    (query stEmpty "What is this about?" (.err "boom")).2.answer =
      "Please upload documents first before asking questions." ∧
    (query stEmpty "What is this about?" (.err "boom")).2.sources = [] ∧
    (query stEmpty "What is this about?" (.err "boom")).2.error =
      some "No documents loaded" :=
  claim_C2 stEmpty "What is this about?" (.err "boom") rfl

/-- Claim C3: for every sequence of appended turns, the conversation
memory window never contains more than `memoryK = 10` turns; after
appending eleven turns the oldest turn is evicted (FIFO: the window is
the tail of the appended sequence) and the window, read oldest first,
still has length 10. -/
theorem claim_C3 (turns : List Turn) :
    (memWindow (turns.foldl appendTurn [])).length ≤ memoryK ∧
    (turns.length = memoryK + 1 →
      memWindow (turns.foldl appendTurn []) = turns.tail ∧
      (memWindow (turns.foldl appendTurn [])).length = memoryK) := by
  rw [foldl_appendTurn, List.nil_append]
  refine ⟨?_, ?_⟩
  · simp only [memWindow, List.length_drop]
    omega
  · intro h
    refine ⟨?_, ?_⟩
    · simp only [memWindow, h, memoryK]
      norm_num
    · simp only [memWindow, List.length_drop, h, memoryK]

/-- Claim C3 witness: eleven concrete turns. -/
theorem claim_C3_witness :
    (memWindow (turns11.foldl appendTurn [])).length ≤ memoryK ∧
    (memWindow (turns11.foldl appendTurn []) = turns11.tail ∧
      (memWindow (turns11.foldl appendTurn [])).length = memoryK) :=
  ⟨(claim_C3 turns11).1, (claim_C3 turns11).2 (by decide)⟩

/-- Claim C4: if the language-model capability fails during a query, the
query operation fails for that call only, returning the caught-error
result, and the whole state, in particular the conversation memory, is
exactly as before the call: no partial turn is recorded on the failure
path. -/
theorem claim_C4 (st : ChatState) (c : QAChain) (q e : String)
    (h : st.qaChain = some c) :
    (query st q (.err e)).1 = st ∧
    (query st q (.err e)).1.memory = st.memory ∧
    (query st q (.err e)).2.error = some e := by
  simp [query, h]

/-- Claim C4 witness: a concrete failing generation call on a built
state. -/
theorem claim_C4_witness :
    (query stA "q" (.err "timeout")).1 = stA ∧
    (query stA "q" (.err "timeout")).1.memory = stA.memory ∧
    (query stA "q" (.err "timeout")).2.error = some "timeout" :=
  claim_C4 stA (mkQaChain vsA) "q" "timeout" rfl

/-- Claim C5: index persistence round-trips; for every built index,
query text and `k` not exceeding the corpus size, saving and loading
back yields an index whose retrieval returns the identical ordered
record list (by id) as the pre-save index. -/
theorem claim_C5 (emb : String → List Int) (vs : Vectorstore) (q : String) (k : Nat)
    (_hk : k ≤ vs.records.length) :
    (retrieve emb (loadVS (saveVS vs)) q k).map (fun r => r.rid) =
      (retrieve emb vs q k).map (fun r => r.rid) := by
  rw [loadVS_saveVS]

/-- Claim C5 witness: the concrete one-record index with `k = 1`. -/
theorem claim_C5_witness :
    (retrieve embZero (loadVS (saveVS vsA)) "q" 1).map (fun r => r.rid) =
      (retrieve embZero vsA "q" 1).map (fun r => r.rid) :=
  claim_C5 embZero vsA "q" 1 (by decide)

/-- Claim C6: every chunk produced by the splitter has length at most
the configured maximum of 1000 units; consecutive chunks share exactly
the configured 200 units (the leading 200 units of each later chunk are
the trailing 200 units of its predecessor, which has full length 1000);
and the synthetic 2500-unit document with max 1000 and overlap 200
yields exactly the 3 chunks with the defined boundaries. -/
theorem claim_C6 (l : List Nat) :
    (∀ c ∈ splitText 1000 200 l, c.length ≤ 1000) ∧
    List.Chain' (fun a b => a.length = 1000 ∧ b.take 200 = a.drop 800)
      (splitText 1000 200 l) ∧
    splitText 1000 200 (List.range 2500) =
      [List.range' 0 1000, List.range' 800 1000, List.range' 1600 900] := by
  refine ⟨?_, ?_, splitText_range2500⟩
  · intro c hc
    simp only [splitText] at hc
    norm_num at hc
    refine chunkGo_length_le 1000 800 l.length l ?_ c hc
    omega
  · have h := chunkGo_chain 1000 200 (by norm_num) l.length l
    simp only [splitText]
    norm_num
    norm_num at h
    exact h

/-- Claim C6 witness: the middle chunk of the synthetic document obeys
the length bound. -/
theorem claim_C6_witness :
    (List.range' 800 1000).length ≤ 1000 :=
  (claim_C6 (List.range 2500)).1 (List.range' 800 1000)
    (by rw [(claim_C6 (List.range 2500)).2.2]; simp)

/-- Claim C7, corrected, counterexample: a query whose underlying
generation call failed is still emitted by `main` with status `success`
(the failure is only visible in the error field), contradicting the
claim that the status is `success` exactly when the operation
succeeded. -/
theorem claim_C7_counterexample :
    (mainQuery stA "q" (.err "quota")).2.status = "success" ∧
    (mainQuery stA "q" (.err "quota")).2.error = some "quota" := by
  exact ⟨rfl, rfl⟩

/-- Claim C7, amended: every result of the query action carries a status
discriminator, but it is unconditionally `success`, even when the
underlying generation call failed, in which case an error field is set
alongside; only the exception-propagation path of `main` reports status
`error`, together with a human-readable message. -/
theorem claim_C7 (st : ChatState) (c : QAChain) (q : String) (llm : LlmOutcome)
    (e : String) (h : st.qaChain = some c) :
    (mainQuery st q llm).2.status = "success" ∧
    ((mainQuery st q (.err e)).2.status = "success" ∧
      (mainQuery st q (.err e)).2.error = some e) ∧
    (mainError e).status = "error" ∧
    (mainError e).message = some ("An error occurred: " ++ e) := by
  refine ⟨rfl, ⟨rfl, ?_⟩, rfl, rfl⟩
  simp [mainQuery, query, h]

/-- Claim C7 witness: concrete query with a failing generation call. -/
theorem claim_C7_witness :
    (mainQuery stA "q" (.ok "fine" [])).2.status = "success" ∧
    ((mainQuery stA "q" (.err "quota exceeded")).2.status = "success" ∧
      (mainQuery stA "q" (.err "quota exceeded")).2.error = some "quota exceeded") ∧
    (mainError "quota exceeded").status = "error" ∧
    (mainError "quota exceeded").message =
      some ("An error occurred: " ++ "quota exceeded") :=
  claim_C7 stA (mkQaChain vsA) "q" (.ok "fine" []) "quota exceeded" rfl

/-- Claim C8: every document tagged as coming from the temporary S3
download directory carries the source-type tag `s3`, and whenever some
supplied S3 path has a basename equal to the local file name, the
metadata records the first such path. -/
theorem claim_C8 (s3Paths : List String) (fileName : String) (docs : List Doc)
    (d : Doc) (hd : d ∈ tagDocsIfS3 true s3Paths fileName docs) :
    d.metadata.lookup "source_type" = some "s3" ∧
    ((∃ p ∈ s3Paths, basename p = fileName) →
      d.metadata.lookup "s3_path" = s3Paths.find? (fun p => basename p == fileName)) := by
  simp only [tagDocsIfS3, if_pos trivial, List.mem_map] at hd
  obtain ⟨d0, hd0, rfl⟩ := hd
  unfold tagS3Doc
  cases hfind : s3Paths.find? (fun p => basename p == fileName) with
  | some p =>
    refine ⟨?_, ?_⟩
    · simp only [hfind]
      rw [lookup_setMeta_ne _ _ _ _ (by decide), lookup_setMeta_self]
    · intro _
      simp only [hfind]
      rw [lookup_setMeta_self]
  | none =>
    refine ⟨?_, ?_⟩
    · simp only [hfind]
      rw [lookup_setMeta_self]
    · rintro ⟨p, hp, hbp⟩
      exfalso
      have hno := List.find?_eq_none.mp hfind p hp
      simp [hbp] at hno

/-- Claim C8 witness: a single downloaded file matched back to its S3
path. -/
theorem claim_C8_witness :
    (tagS3Doc ["bucket/docs/report.pdf"] "report.pdf" (Doc.mk "text" [])).metadata.lookup
        "source_type" = some "s3" ∧
    ((∃ p ∈ ["bucket/docs/report.pdf"], basename p = "report.pdf") →
      (tagS3Doc ["bucket/docs/report.pdf"] "report.pdf" (Doc.mk "text" [])).metadata.lookup
          "s3_path" =
        (["bucket/docs/report.pdf"] : List String).find?
          (fun p => basename p == "report.pdf")) :=
  claim_C8 ["bucket/docs/report.pdf"] "report.pdf" [Doc.mk "text" []]
    (tagS3Doc ["bucket/docs/report.pdf"] "report.pdf" (Doc.mk "text" [])) (by decide)

/-- Claim C9: on a successful query over a built index, each evidence
entry pairs, entrywise with the retrieved chunks, exactly the first 200
characters of the chunk text with the three dots appended
unconditionally, together with the full chunk metadata. -/
theorem claim_C9 (st : ChatState) (c : QAChain) (q ans : String) (docs : List Doc)
    (h : st.qaChain = some c) :
    List.Forall₂ (fun d s => s.1 = takeChars d.pageContent 200 ++ "..." ∧ s.2 = d.metadata)
      docs (query st q (.ok ans docs)).2.sources := by
  simp only [query, h]
  rw [List.forall₂_map_right_iff]
  exact List.forall₂_same.mpr (fun d _ => ⟨rfl, rfl⟩)

/-- Claim C9 witness: a chunk shorter than 200 characters still gets the
dots appended. -/
theorem claim_C9_witness :
    List.Forall₂ (fun d s => s.1 = takeChars d.pageContent 200 ++ "..." ∧ s.2 = d.metadata)
      [docShort] (query stA "q" (.ok "a" [docShort])).2.sources ∧
    (query stA "q" (.ok "a" [docShort])).2.sources = [("hi...", [])] :=
  ⟨claim_C9 stA (mkQaChain vsA) "q" "a" [docShort] rfl, by decide⟩

/-- Claim C10: loading a persisted index never raises to the caller (the
embedded operation is total and routes every deserialization failure to
the logging handler), and on the failure path both the previously held
index and the previously held QA chain remain exactly as they were. -/
theorem claim_C10 (st : ChatState) (e : String) :
    loadVectorstoreOp st (.error e) = st ∧
    (loadVectorstoreOp st (.error e)).vectorstore = st.vectorstore ∧
    (loadVectorstoreOp st (.error e)).qaChain = st.qaChain := by
  exact ⟨rfl, rfl, rfl⟩

end SmartDoc
